import Mathlib

/-!
Verification development for the `pixelqart` QR-art search program
(`pixelqart.py`).  The program's rasters, its design-splitting step, its
compositing and validation pipeline, its robustness scorer, its worker loop
and its command-line gate are shallowly embedded below; external
collaborators (the HTTP renderer, the PNG/JPEG codecs and the barcode
decoder) are parameters of the embedded functions.
-/

/-- RGBA pixel value as stored by PIL; channels are naturals in [0, 255]. -/
structure RGBA where
  r : Nat
  g : Nat
  b : Nat
  a : Nat
  deriving DecidableEq

/-- PIL image modes used by the program (`'RGBA'`, `'RGB'`). -/
inductive PixMode where
  | RGBA
  | RGB
  deriving DecidableEq

/-- Shallow embedding of a PIL image: a mode, dimensions and a total pixel
function (pixels outside the `width × height` rectangle are irrelevant). -/
structure Img where
  mode : PixMode
  width : Nat
  height : Nat
  pix : Nat → Nat → RGBA

/-- Model of `Image.new(mode, size, color)`; PIL's default fill for a new
RGBA image is fully transparent `(0, 0, 0, 0)`. -/
def imgNew (m : PixMode) (w h : Nat) (c : RGBA) : Img :=
  { mode := m, width := w, height := h, pix := fun _ _ => c }

/-- Model of `base.paste(ov, (ox, oy))` without a mask: pixels inside the
pasted rectangle are overwritten (including alpha), others kept. -/
def pasteAt (base ov : Img) (ox oy : Nat) : Img :=
  { mode := base.mode, width := base.width, height := base.height,
    pix := fun x y =>
      if ox ≤ x ∧ x < ox + ov.width ∧ oy ≤ y ∧ y < oy + ov.height then
        ov.pix (x - ox) (y - oy)
      else base.pix x y }

/-- Model of `base.paste(ov, (ox, oy), mask=ov)`: the overlay's own alpha
channel is the paste mask.  Every mask this program passes is binary
(alpha 0 or 255, see `necessaryOf_alpha_binary`), for which PIL copies the
overlay pixel where alpha is 255 and keeps the base pixel where it is 0. -/
def maskPaste (base ov : Img) (ox oy : Nat) : Img :=
  { mode := base.mode, width := base.width, height := base.height,
    pix := fun x y =>
      if (ox ≤ x ∧ x < ox + ov.width ∧ oy ≤ y ∧ y < oy + ov.height) ∧
          (ov.pix (x - ox) (y - oy)).a = 255 then
        ov.pix (x - ox) (y - oy)
      else base.pix x y }

/-- Model of `img.resize((w, h))`; only the output dimensions of the
library's resampling are relied upon by any theorem below. -/
def imgResize (img : Img) (w h : Nat) : Img :=
  { mode := img.mode, width := w, height := h,
    pix := fun x y => img.pix (x * img.width / w) (y * img.height / h) }

/-- Model of `img.convert('RGB')`: the alpha band is dropped, producing an
opaque color image. -/
def imgConvertRGB (img : Img) : Img :=
  { mode := PixMode.RGB, width := img.width, height := img.height,
    pix := fun x y =>
      { r := (img.pix x y).r, g := (img.pix x y).g, b := (img.pix x y).b,
        a := 255 } }

/-- Constant `QRCODE_SIZE = (41, 41)` (QR Code v6 module grid). -/
def QRCODE_SIZE : Nat × Nat := (41, 41)

/-- Constant `QART_MARGIN = 4`. -/
def QART_MARGIN : Nat := 4

/-- Reserved marker color for necessary black, `(0, 0, 255, 255)` (blue). -/
def NECESSARY_BLACK : RGBA := { r := 0, g := 0, b := 255, a := 255 }

/-- Reserved marker color for necessary white, `(255, 255, 0, 255)`
(yellow). -/
def NECESSARY_WHITE : RGBA := { r := 255, g := 255, b := 0, a := 255 }

/-- Error raised when the input design has the wrong mode or size; models
the two `assert` statements at the top of `split_design`. -/
inductive InvalidDesignError where
  | badMode
  | badSize
  deriving DecidableEq

/-- Desired part built by `split_design`'s loop: markers are normalised to
true black/white, every other pixel is copied as-is. -/
def desiredOf (design : Img) : Img :=
  { mode := PixMode.RGBA, width := QRCODE_SIZE.1, height := QRCODE_SIZE.2,
    pix := fun x y =>
      if design.pix x y = NECESSARY_BLACK then { r := 0, g := 0, b := 0, a := 255 }
      else if design.pix x y = NECESSARY_WHITE then
        { r := 255, g := 255, b := 255, a := 255 }
      else design.pix x y }

/-- Necessary part built by `split_design`'s loop: marker pixels are
normalised to opaque black/white, all other pixels stay at the fully
transparent default of `Image.new('RGBA', ...)`. -/
def necessaryOf (design : Img) : Img :=
  { mode := PixMode.RGBA, width := QRCODE_SIZE.1, height := QRCODE_SIZE.2,
    pix := fun x y =>
      if design.pix x y = NECESSARY_BLACK then { r := 0, g := 0, b := 0, a := 255 }
      else if design.pix x y = NECESSARY_WHITE then
        { r := 255, g := 255, b := 255, a := 255 }
      else { r := 0, g := 0, b := 0, a := 0 } }

/-- Embedding of `split_design`: asserts `design.mode == 'RGBA'` and
`design.size == QRCODE_SIZE`, then returns the desired and necessary
parts. -/
def split_design (design : Img) : Except InvalidDesignError (Img × Img) :=
  if design.mode ≠ PixMode.RGBA then Except.error InvalidDesignError.badMode
  else if (design.width, design.height) ≠ QRCODE_SIZE then
    Except.error InvalidDesignError.badSize
  else Except.ok (desiredOf design, necessaryOf design)

/-- Detected barcode as reported by the external decoder (`pyzbar`); only
its symbology tag (`.type`) is inspected by the program. -/
structure Code where
  type : String

/-- Acceptance check at the Validator call site
(`len(info) == 1 and info[0].type == 'QRCODE'`, line 115). -/
def validatorOk (info : List Code) : Bool :=
  info.length == 1 &&
    (match info with
     | c :: _ => c.type == "QRCODE"
     | [] => false)

/-- Acceptance check at the Scorer call site
(`len(info) == 1 and info[0].type == 'QRCODE'`, line 158). -/
def scorerOk (info : List Code) : Bool :=
  info.length == 1 &&
    (match info with
     | c :: _ => c.type == "QRCODE"
     | [] => false)

/-- Image handed to the barcode decoder by the Validator:
`canvas.resize((canvas.width*2, canvas.height*2))`. -/
def validatorInput (canvas : Img) : Img :=
  imgResize canvas (canvas.width * 2) (canvas.height * 2)

/-- Full Validator step: decode the 2x-upscaled composite once and apply
the acceptance check; `decode` is the external barcode capability. -/
def validateCandidate (decode : Img → List Code) (canvas : Img) : Bool :=
  validatorOk (decode (validatorInput canvas))

/-- Error for the two dimension asserts at the top of `eval_qrcode`. -/
inductive EvalError where
  | badWidth
  | badHeight
  deriving DecidableEq

/-- Padded image built by `eval_qrcode` before the quality loop: the
candidate scaled 10x, pasted (with its own alpha as mask) at the centre of
a fully transparent canvas twice that size. -/
def evalPadded (qr : Img) : Img :=
  maskPaste
    (imgNew PixMode.RGBA (qr.width * 20) (qr.height * 20)
      { r := 0, g := 0, b := 0, a := 0 })
    (imgResize qr (qr.width * 10) (qr.height * 10))
    (qr.width * 5) (qr.height * 5)

/-- Embedding of `eval_qrcode`: assert the 49x49 composite size, pad, then
for each JPEG quality 1..95 flatten to RGB, JPEG-encode and decode back
(the external codec round trip is the parameter `jpeg`), run the barcode
decoder and count passes starting from 1. -/
def eval_qrcode (decode : Img → List Code) (jpeg : Nat → Img → Img)
    (qrcode : Img) : Except EvalError Nat :=
  if qrcode.width ≠ QRCODE_SIZE.1 + QART_MARGIN * 2 then Except.error EvalError.badWidth
  else if qrcode.height ≠ QRCODE_SIZE.2 + QART_MARGIN * 2 then
    Except.error EvalError.badHeight
  else
    Except.ok ((List.range' 1 95).foldl
      (fun success quality =>
        if scorerOk (decode (jpeg quality (imgConvertRGB (evalPadded qrcode)))) then
          success + 1
        else success)
      1)

/-- Model of Python's `str.split('"')` over character lists: the input is
cut at every double-quote character, empty pieces included. -/
def splitQuote : List Char → List (List Char)
  | [] => [[]]
  | c :: rest =>
    if c = '"' then [] :: splitQuote rest
    else
      match splitQuote rest with
      | [] => [[c]]
      | h :: t => (c :: h) :: t

/-- Payload marker checked by `search_qrcode`:
`'data:image/png;base64,'`. -/
def dataMarker : List Char := String.toList "data:image/png;base64,"

/-- Composite canvas size `(41 + 4*2, 41 + 4*2) = (49, 49)`. -/
def compositeSize : Nat × Nat :=
  (QRCODE_SIZE.1 + QART_MARGIN * 2, QRCODE_SIZE.2 + QART_MARGIN * 2)

/-- Failures of one attempt's rendering/parsing, each modelling an uncaught
Python exception in the loop body: tuple unpacking of the quote-split
response, the payload-marker assert, and the two raster-dimension
asserts. -/
inductive StepError where
  | unpackFailed
  | markerAssert
  | dimsAssert
  | evalAssert (e : EvalError)
  deriving DecidableEq

/-- Compositor (lines 107-112): scale the raw 196x196 render down to
49x49, paste it onto a fresh transparent canvas at (0,0), then paste the
necessary overlay at `(QART_MARGIN, QART_MARGIN)` with its own alpha as
mask. -/
def compositeCanvas (qr necessary : Img) : Img :=
  maskPaste
    (pasteAt
      (imgNew PixMode.RGBA compositeSize.1 compositeSize.2
        { r := 0, g := 0, b := 0, a := 0 })
      (imgResize qr compositeSize.1 compositeSize.2) 0 0)
    necessary QART_MARGIN QART_MARGIN

/-- Response handling of one attempt (lines 93-112): split the renderer's
body on double quotes, unpack the second piece, check the base64 PNG
marker, decode the payload (external, `decodePng`), assert the 4x raster
dimensions and build the composite canvas.  Each failing check is the
uncaught exception it raises in the source. -/
def renderComposite (decodePng : List Char → Img) (necessary : Img)
    (body : List Char) : Except StepError Img :=
  match splitQuote body with
  | _ :: data :: _ =>
    if dataMarker.isPrefixOf data then
      if (decodePng (data.drop dataMarker.length)).width == 4 * compositeSize.1 &&
          (decodePng (data.drop dataMarker.length)).height == 4 * compositeSize.2 then
        Except.ok (compositeCanvas (decodePng (data.drop dataMarker.length)) necessary)
      else Except.error StepError.dimsAssert
    else Except.error StepError.markerAssert
  | _ => Except.error StepError.unpackFailed

/-- One attempt up to the Validator's verdict: `Except.ok (some canvas)`
when the candidate passes validation, `Except.ok none` when the decoder
rejects it (the `continue` path), `Except.error` when an assertion fires. -/
def attemptCandidate (decode : Img → List Code) (decodePng : List Char → Img)
    (necessary : Img) (body : List Char) : Except StepError (Option Img) :=
  match renderComposite decodePng necessary body with
  | Except.error e => Except.error e
  | Except.ok canvas =>
    Except.ok (if validateCandidate decode canvas then some canvas else none)

/-- Decimal digit to its character, as used when formatting numbers into
the result filename. -/
def digitChar (d : Nat) : Char :=
  match d with
  | 0 => '0'
  | 1 => '1'
  | 2 => '2'
  | 3 => '3'
  | 4 => '4'
  | 5 => '5'
  | 6 => '6'
  | 7 => '7'
  | 8 => '8'
  | _ => '9'

/-- Decimal representation of a natural number as a character list, most
significant digit first; models Python's f-string formatting of an int. -/
def decRepr (n : Nat) : List Char :=
  ((Nat.digits 10 n).map digitChar).reverse

/-- Rendering parameters of one attempt: mask pattern, orientation and
random seed, sampled per attempt in `search_qrcode`. -/
structure Params where
  mask : Nat
  orient : Nat
  seed : Nat
  deriving DecidableEq

/-- Filename of a persisted result:
`f'{name}-{score}-m{mask}o{orient}s{seed}.png'` (line 127). -/
def filenameFor (name : List Char) (score : Nat) (p : Params) : List Char :=
  name ++ '-' :: (decRepr score ++ '-' :: 'm' ::
    (decRepr p.mask ++ 'o' :: (decRepr p.orient ++ 's' ::
      (decRepr p.seed ++ ['.', 'p', 'n', 'g']))))

/-- External collaborators and per-session constants of one worker:
barcode decoder, JPEG round trip, base64+PNG decoding, the necessary
overlay, the session name, the random parameter draws, the renderer
response bodies per attempt, and the stop-on-first-found flag. -/
structure WorkerEnv where
  decode : Img → List Code
  jpeg : Nat → Img → Img
  decodePng : List Char → Img
  necessary : Img
  name : List Char
  params : Nat → Params
  body : Nat → List Char
  stopIfFound : Bool

/-- Control point of the `search_qrcode` loop, indexed by the attempt
counter `k`: the top of the `while` loop (the only place the stop event is
read), the post-validation point, the post-scoring point, the terminal
state after `break` or loop exit, and the dead state after an uncaught
exception. -/
inductive WPhase where
  | top (k : Nat)
  | validated (canvas : Img) (p : Params) (k : Nat)
  | scored (canvas : Img) (p : Params) (score : Nat) (k : Nat)
  | exited
  | failed (e : StepError)

/-- Worker state: current control point plus the list of results persisted
so far, newest first, as (filename, image) pairs. -/
structure WState where
  phase : WPhase
  saved : List (List Char × Img)

/-- Whether a control point is the top of the sampling loop. -/
def phaseIsTop : WPhase → Bool
  | WPhase.top _ => true
  | _ => false

/-- Small-step semantics of one worker of `search_qrcode`.  `stopSet` is
the value of the shared stop event at this instant; it is consulted only
in the `top` phase, mirroring `while not stop_event.is_set()`.  The `top`
step runs sampling, rendering, compositing and validation; the
`validated` step runs the scorer; the `scored` step saves the file and
either breaks (stop-on-first-found, which also sets the shared event) or
loops. -/
def workerStep (env : WorkerEnv) (stopSet : Bool) (s : WState) : WState :=
  match s.phase with
  | WPhase.top k =>
    if stopSet then { s with phase := WPhase.exited }
    else
      match attemptCandidate env.decode env.decodePng env.necessary (env.body k) with
      | Except.error e => { s with phase := WPhase.failed e }
      | Except.ok none => { s with phase := WPhase.top (k + 1) }
      | Except.ok (some canvas) =>
        { s with phase := WPhase.validated canvas (env.params k) k }
  | WPhase.validated canvas p k =>
    match eval_qrcode env.decode env.jpeg canvas with
    | Except.ok score => { s with phase := WPhase.scored canvas p score k }
    | Except.error e => { s with phase := WPhase.failed (StepError.evalAssert e) }
  | WPhase.scored canvas p score k =>
    if env.stopIfFound then
      { phase := WPhase.exited,
        saved := (filenameFor env.name score p, canvas) :: s.saved }
    else
      { phase := WPhase.top (k + 1),
        saved := (filenameFor env.name score p, canvas) :: s.saved }
  | WPhase.exited => s
  | WPhase.failed _ => s

/-- Failure of the one-time reference-image upload. -/
inductive UploadError where
  | httpError
  deriving DecidableEq

/-- Setup failures of `main`, fatal before any worker starts. -/
inductive SetupError where
  | invalidDesign (e : InvalidDesignError)
  | uploadFailed (e : UploadError)
  deriving DecidableEq

/-- Session state reached by `main` once setup succeeded: the uploaded
reference handle, the shared necessary overlay and the worker count. -/
structure SessionStart where
  uploadedId : List Char
  necessary : Img
  workerCount : Nat

/-- Setup pipeline of `main` (lines 178-190): split the design, upload the
desired part (external capability `upload`), then start `concurrency`
workers.  An exception in an earlier stage aborts before any worker
starts. -/
def mainModel (upload : Img → Except UploadError (List Char)) (design : Img)
    (concurrency : Nat) : Except SetupError SessionStart :=
  match split_design design with
  | Except.error e => Except.error (SetupError.invalidDesign e)
  | Except.ok (desired, necessary) =>
    match upload desired with
    | Except.error e => Except.error (SetupError.uploadFailed e)
    | Except.ok id =>
      Except.ok { uploadedId := id, necessary := necessary, workerCount := concurrency }

/-- ASCII lowercasing of one character, modelling `str.lower()` on the
extension (which is ASCII for any path the program accepts). -/
def lowerChar (c : Char) : Char :=
  if 'A' ≤ c ∧ c ≤ 'Z' then Char.ofNat (c.toNat + 32) else c

/-- Model of `os.path.basename`: the part of the path after the last
slash. -/
def basename (p : List Char) : List Char :=
  (p.reverse.takeWhile (fun c => c ≠ '/')).reverse

/-- Model of `os.path.splitext` on a slash-free name: split at the last
dot, except that a name whose every character before that dot is a dot
(such as `.png` or `..png`) has no extension. -/
def splitext (b : List Char) : List Char × List Char :=
  if (b.reverse.takeWhile (fun c => c ≠ '.')).length = b.length then (b, [])
  else
    if (b.reverse.drop ((b.reverse.takeWhile (fun c => c ≠ '.')).length + 1)).any
        (fun c => c ≠ '.') then
      ((b.reverse.drop ((b.reverse.takeWhile (fun c => c ≠ '.')).length + 1)).reverse,
        '.' :: (b.reverse.takeWhile (fun c => c ≠ '.')).reverse)
    else (b, [])

/-- Expected lowercased extension `.png`. -/
def pngExt : List Char := ['.', 'p', 'n', 'g']

/-- Failure of the `assert png.lower() == '.png'` gate at the entry
point. -/
inductive CliError where
  | assertionFailed
  deriving DecidableEq

/-- Entry-point gate (lines 205-206): derive the session name and the
extension from the design path's basename and assert that the extension,
lowercased, is `.png`.  The design file's content (whether it is a valid
PNG) is opened earlier by argparse but never inspected here, which the
unused `contentValidPng` flag makes explicit. -/
def cliGate (designPath : List Char) (_contentValidPng : Bool) :
    Except CliError (List Char) :=
  if (splitext (basename designPath)).2.map lowerChar = pngExt then
    Except.ok (splitext (basename designPath)).1
  else Except.error CliError.assertionFailed

/-- Concrete raw render (196x196, fully transparent) used to exercise the
pipeline on closed inputs. -/
def demoRawQr : Img := imgNew PixMode.RGBA 196 196 { r := 0, g := 0, b := 0, a := 0 }

/-- Concrete transparent 41x41 overlay used to exercise the pipeline on
closed inputs. -/
def demoNec : Img := imgNew PixMode.RGBA 41 41 { r := 0, g := 0, b := 0, a := 0 }

/-- Concrete well-formed renderer response body containing a marked base64
payload between double quotes. -/
def demoBody : List Char := String.toList "a\"data:image/png;base64,AAAA\"b"

/-- Concrete malformed renderer response body: an error page with no
double-quoted payload at all. -/
def demoBadBody : List Char := String.toList "<html>internal server error</html>"

/-- Concrete worker environment whose decoder always rejects (reports no
codes) and whose renderer returns `demoBody`. -/
def demoEnvReject : WorkerEnv :=
  { decode := fun _ => [], jpeg := fun _ i => i, decodePng := fun _ => demoRawQr,
    necessary := demoNec, name := [], params := fun _ => { mask := 0, orient := 0, seed := 0 },
    body := fun _ => demoBody, stopIfFound := false }

/-- Concrete worker environment whose renderer returns the malformed
`demoBadBody`. -/
def demoEnvBadRender : WorkerEnv :=
  { decode := fun _ => [], jpeg := fun _ i => i, decodePng := fun _ => demoRawQr,
    necessary := demoNec, name := [], params := fun _ => { mask := 0, orient := 0, seed := 0 },
    body := fun _ => demoBadBody, stopIfFound := false }

/-- Concrete worker environment whose decoder always reports exactly one
QR code, so every candidate validates and every quality level passes. -/
def demoEnvAccept : WorkerEnv :=
  { decode := fun _ => [{ type := "QRCODE" }], jpeg := fun _ i => i,
    decodePng := fun _ => demoRawQr, necessary := demoNec, name := [],
    params := fun _ => { mask := 1, orient := 2, seed := 3 },
    body := fun _ => demoBody, stopIfFound := false }

/-- Concrete 49x49 candidate canvas. -/
def demoCanvas : Img := compositeCanvas demoRawQr demoNec

/-- Image equality from field-wise equality (pointwise on pixels). -/
theorem Img.eqOf {x y : Img} (hm : x.mode = y.mode) (hw : x.width = y.width)
    (hh : x.height = y.height) (hp : ∀ i j, x.pix i j = y.pix i j) : x = y := by
  cases x
  cases y
  simp only [Img.mk.injEq]
  exact ⟨hm, hw, hh, funext fun i => funext fun j => hp i j⟩

/-- Every pixel of the necessary overlay produced by `split_design` has
alpha exactly 0 or 255, so PIL's mask paste never blends with it. -/
theorem necessaryOf_alpha_binary (design : Img) (x y : Nat) :
    ((necessaryOf design).pix x y).a = 0 ∨ ((necessaryOf design).pix x y).a = 255 := by
  simp only [necessaryOf]
  split
  · simp
  · split
    · simp
    · simp

/-- Acceptance characterisation shared by the Validator and Scorer
theorems: the check from the source holds exactly on a singleton QR
report. -/
theorem validatorOk_iff (info : List Code) :
    validatorOk info = true ↔ ∃ c : Code, info = [c] ∧ c.type = "QRCODE" := by
  cases info with
  | nil => simp [validatorOk]
  | cons c t =>
    cases t with
    | nil => simp [validatorOk]
    | cons d t' => simp [validatorOk]

/-- C4: for every accepted 41x41 RGBA design and every pixel position, the
necessary-black sentinel (0,0,255,255) yields opaque true black in both
outputs, the necessary-white sentinel (255,255,0,255) yields opaque true
white in both, and any other pixel is copied verbatim into the desired
output while the necessary output stays fully transparent there. -/
theorem split_design_pixel_spec :
    ∀ (design des nec : Img), split_design design = Except.ok (des, nec) →
    ∀ x y : Nat,
      (design.pix x y = NECESSARY_BLACK →
        des.pix x y = { r := 0, g := 0, b := 0, a := 255 } ∧
        nec.pix x y = { r := 0, g := 0, b := 0, a := 255 }) ∧
      (design.pix x y = NECESSARY_WHITE →
        des.pix x y = { r := 255, g := 255, b := 255, a := 255 } ∧
        nec.pix x y = { r := 255, g := 255, b := 255, a := 255 }) ∧
      (design.pix x y ≠ NECESSARY_BLACK → design.pix x y ≠ NECESSARY_WHITE →
        des.pix x y = design.pix x y ∧
        nec.pix x y = { r := 0, g := 0, b := 0, a := 0 }) := by
  intro design des nec h x y
  rw [split_design] at h
  split at h
  · exact absurd h (by simp)
  · split at h
    · exact absurd h (by simp)
    · rw [Except.ok.injEq, Prod.mk.injEq] at h
      obtain ⟨h1, h2⟩ := h
      subst h1
      subst h2
      have hne : NECESSARY_WHITE ≠ NECESSARY_BLACK := by decide
      refine ⟨fun hb => ?_, fun hw => ?_, fun hb hw => ?_⟩
      · constructor <;> simp [desiredOf, necessaryOf, hb]
      · constructor <;> simp [desiredOf, necessaryOf, hw, hne]
      · constructor <;> simp [desiredOf, necessaryOf, hb, hw]

/-- Witness for C4: on an all-necessary-black design, both outputs hold
opaque true black at (0, 0). -/
theorem split_design_pixel_spec_witness :
    (imgNew PixMode.RGBA 41 41 NECESSARY_BLACK).pix 0 0 = NECESSARY_BLACK ∧
    ((desiredOf (imgNew PixMode.RGBA 41 41 NECESSARY_BLACK)).pix 0 0 =
        { r := 0, g := 0, b := 0, a := 255 } ∧
      (necessaryOf (imgNew PixMode.RGBA 41 41 NECESSARY_BLACK)).pix 0 0 =
        { r := 0, g := 0, b := 0, a := 255 }) :=
  ⟨rfl,
    (split_design_pixel_spec (imgNew PixMode.RGBA 41 41 NECESSARY_BLACK) _ _ rfl 0 0).1
      rfl⟩

/-- C5: `split_design` fails with an `InvalidDesignError` whenever the
input's mode is not RGBA or its size is not exactly 41x41, and then the
whole setup pipeline aborts before any worker starts, whatever the upload
capability and requested concurrency. -/
theorem split_design_invalid_aborts :
    ∀ design : Img,
      design.mode ≠ PixMode.RGBA ∨ (design.width, design.height) ≠ QRCODE_SIZE →
      ∃ e : InvalidDesignError, split_design design = Except.error e ∧
        ∀ (upload : Img → Except UploadError (List Char)) (concurrency : Nat),
          mainModel upload design concurrency =
            Except.error (SetupError.invalidDesign e) := by
  intro design h
  by_cases hm : design.mode = PixMode.RGBA
  · have hs : (design.width, design.height) ≠ QRCODE_SIZE :=
      h.resolve_left (fun hA => hA hm)
    refine ⟨InvalidDesignError.badSize, ?_, ?_⟩
    · simp [split_design, hm, hs]
    · intro upload concurrency
      simp [mainModel, split_design, hm, hs]
  · refine ⟨InvalidDesignError.badMode, ?_, ?_⟩
    · simp [split_design, hm]
    · intro upload concurrency
      simp [mainModel, split_design, hm]

/-- Witness for C5: an RGB-mode design of the right size is rejected and
the session never starts. -/
theorem split_design_invalid_aborts_witness :
    ∃ e : InvalidDesignError,
      split_design (imgNew PixMode.RGB 41 41 NECESSARY_BLACK) = Except.error e ∧
      ∀ (upload : Img → Except UploadError (List Char)) (concurrency : Nat),
        mainModel upload (imgNew PixMode.RGB 41 41 NECESSARY_BLACK) concurrency =
          Except.error (SetupError.invalidDesign e) :=
  split_design_invalid_aborts (imgNew PixMode.RGB 41 41 NECESSARY_BLACK)
    (Or.inl (by decide))

/-- C6: pasting the necessary overlay produced by `split_design` a second
time at `(QART_MARGIN, QART_MARGIN)` with its own alpha as mask changes no
pixel of an already-composited candidate canvas. -/
theorem necessary_paste_idempotent :
    ∀ (design des nec canvas : Img), split_design design = Except.ok (des, nec) →
      maskPaste (maskPaste canvas nec QART_MARGIN QART_MARGIN) nec QART_MARGIN
          QART_MARGIN =
        maskPaste canvas nec QART_MARGIN QART_MARGIN := by
  intro design des nec canvas _h
  refine Img.eqOf rfl rfl rfl ?_
  intro i j
  by_cases hc :
    (QART_MARGIN ≤ i ∧ i < QART_MARGIN + nec.width ∧ QART_MARGIN ≤ j ∧
        j < QART_MARGIN + nec.height) ∧
      (nec.pix (i - QART_MARGIN) (j - QART_MARGIN)).a = 255
  · simp [maskPaste, hc]
  · simp [maskPaste, hc]

/-- Witness for C6: double paste of a concrete necessary overlay onto a
concrete grey canvas equals the single paste. -/
theorem necessary_paste_idempotent_witness :
    maskPaste
        (maskPaste (imgNew PixMode.RGBA 49 49 ⟨7, 7, 7, 255⟩)
          (necessaryOf (imgNew PixMode.RGBA 41 41 NECESSARY_BLACK)) QART_MARGIN
          QART_MARGIN)
        (necessaryOf (imgNew PixMode.RGBA 41 41 NECESSARY_BLACK)) QART_MARGIN
        QART_MARGIN =
      maskPaste (imgNew PixMode.RGBA 49 49 ⟨7, 7, 7, 255⟩)
        (necessaryOf (imgNew PixMode.RGBA 41 41 NECESSARY_BLACK)) QART_MARGIN
        QART_MARGIN :=
  necessary_paste_idempotent (imgNew PixMode.RGBA 41 41 NECESSARY_BLACK) _ _
    (imgNew PixMode.RGBA 49 49 ⟨7, 7, 7, 255⟩) rfl

/-- C7: the acceptance predicate applied to decoder output is the same
function at the Validator and Scorer call sites, and it holds exactly when
the decoder reported a single code whose symbology is QR. -/
theorem validator_scorer_same_accept :
    ∀ info : List Code,
      validatorOk info = scorerOk info ∧
      (validatorOk info = true ↔ ∃ c : Code, info = [c] ∧ c.type = "QRCODE") := by
  intro info
  refine ⟨rfl, ?_⟩
  cases info with
  | nil => simp [validatorOk]
  | cons c t =>
    cases t with
    | nil => simp [validatorOk]
    | cons d t' => simp [validatorOk]

/-- C1: the Validator upscales the candidate by exactly 2x in each
dimension, feeds that single upscaled image to the barcode decoder, and
accepts exactly when the decoder reports one code of symbology QR; on any
other outcome the worker's step from the loop top with the stop event
clear simply returns to the loop top with a fresh attempt counter (a
`continue`), persisting nothing and raising no error. -/
theorem validator_accept_and_resample :
    ∀ (env : WorkerEnv) (canvas : Img) (k : Nat) (saved : List (List Char × Img)),
      (validatorInput canvas).width = 2 * canvas.width ∧
      (validatorInput canvas).height = 2 * canvas.height ∧
      (validateCandidate env.decode canvas = true ↔
        ∃ c : Code, env.decode (validatorInput canvas) = [c] ∧ c.type = "QRCODE") ∧
      (renderComposite env.decodePng env.necessary (env.body k) = Except.ok canvas →
        validateCandidate env.decode canvas = false →
        workerStep env false { phase := WPhase.top k, saved := saved } =
          { phase := WPhase.top (k + 1), saved := saved }) := by
  intro env canvas k saved
  refine ⟨?_, ?_, ?_, ?_⟩
  · simp [validatorInput, imgResize, Nat.mul_comm]
  · simp [validatorInput, imgResize, Nat.mul_comm]
  · exact validatorOk_iff (env.decode (validatorInput canvas))
  · intro hrc hval
    simp [workerStep, attemptCandidate, hrc, hval]

/-- Witness for C1: with a concrete decoder that reports no codes, the
worker's step on a well-formed render is a plain resample. -/
theorem validator_accept_and_resample_witness :
    workerStep demoEnvReject false { phase := WPhase.top 0, saved := [] } =
      { phase := WPhase.top 1, saved := [] } :=
  (validator_accept_and_resample demoEnvReject demoCanvas 0 []).2.2.2 rfl rfl

/-- Counting fold used by the scorer: folding a conditional increment over
a list starting at `init` adds the number of elements satisfying the
test. -/
theorem foldl_count (f : Nat → Bool) :
    ∀ (l : List Nat) (init : Nat),
      l.foldl (fun acc q => if f q then acc + 1 else acc) init =
        init + (l.filter f).length := by
  intro l
  induction l with
  | nil => intro init; simp
  | cons a t ih =>
    intro init
    by_cases ha : f a = true
    · simp [List.filter_cons, ha, ih]
      omega
    · simp [List.filter_cons, ha, ih]

/-- C2: on an accepted 49x49 candidate, `eval_qrcode` pads the candidate
to a 980x980 canvas (10x scale centred in a transparent canvas twice that
size, hence a 245-pixel transparent margin on every side) and returns 1
plus the number of JPEG quality levels in [1, 95] whose encode/decode
round trip still yields exactly one QR code; the uncompressed candidate
contributes the 1 without a further decoder call. -/
theorem eval_qrcode_score_spec :
    ∀ (decode : Img → List Code) (jpeg : Nat → Img → Img) (qr : Img),
      qr.width = 49 → qr.height = 49 →
      eval_qrcode decode jpeg qr =
          Except.ok (1 + ((List.range' 1 95).filter
            (fun q => scorerOk (decode (jpeg q (imgConvertRGB (evalPadded qr)))))).length) ∧
      (evalPadded qr).width = 980 ∧
      (evalPadded qr).height = 980 ∧
      (∀ x y : Nat, x < 245 ∨ 735 ≤ x ∨ y < 245 ∨ 735 ≤ y →
        (evalPadded qr).pix x y = { r := 0, g := 0, b := 0, a := 0 }) := by
  intro decode jpeg qr hw hh
  refine ⟨?_, ?_, ?_, ?_⟩
  · have hcount := foldl_count
      (fun q => scorerOk (decode (jpeg q (imgConvertRGB (evalPadded qr)))))
      (List.range' 1 95) 1
    rw [eval_qrcode]
    rw [if_neg (by simp [hw, QRCODE_SIZE, QART_MARGIN]),
      if_neg (by simp [hh, QRCODE_SIZE, QART_MARGIN])]
    exact congrArg Except.ok hcount
  · simp [evalPadded, maskPaste, imgNew, hw]
  · simp [evalPadded, maskPaste, imgNew, hh]
  · intro x y hxy
    simp only [evalPadded, maskPaste, imgNew, imgResize, hw, hh]
    rw [if_neg]
    rintro ⟨⟨h1, h2, h3, h4⟩, -⟩
    omega

/-- Witness for C2: a concrete 49x49 candidate satisfies the dimension
hypotheses and its padded canvas is 980 pixels wide. -/
theorem eval_qrcode_score_spec_witness :
    (imgNew PixMode.RGBA 49 49 { r := 0, g := 0, b := 0, a := 0 }).width = 49 ∧
    (evalPadded (imgNew PixMode.RGBA 49 49 { r := 0, g := 0, b := 0, a := 0 })).width =
      980 :=
  ⟨rfl,
    (eval_qrcode_score_spec (fun _ => []) (fun _ i => i)
      (imgNew PixMode.RGBA 49 49 { r := 0, g := 0, b := 0, a := 0 }) rfl rfl).2.1⟩

/-- Counterexample to C3 as stated: on a renderer response with no
double-quoted payload, the worker's step from the loop top does not return
to sampling; the unpacking failure is an uncaught exception that leaves
the worker in a dead state. -/
theorem render_failure_not_resample_cex :
    workerStep demoEnvBadRender false { phase := WPhase.top 0, saved := [] } =
        { phase := WPhase.failed StepError.unpackFailed, saved := [] } ∧
      workerStep demoEnvBadRender false { phase := WPhase.top 0, saved := [] } ≠
        { phase := WPhase.top 1, saved := [] } := by
  refine ⟨rfl, fun h => ?_⟩
  have h' : ({ phase := WPhase.failed StepError.unpackFailed, saved := [] } : WState) =
      { phase := WPhase.top 1, saved := [] } := h
  exact WPhase.noConfusion (congrArg WState.phase h')

/-- C3 (amended): a renderer transport failure or malformed payload
(missing quoted payload, missing image marker, wrong raster dimensions)
raises an uncaught exception that is fatal to the worker: its loop moves
to a dead `failed` state instead of resampling, and it never leaves that
state, whatever the stop event does. -/
theorem render_failure_fatal :
    ∀ (env : WorkerEnv) (k : Nat) (saved : List (List Char × Img)) (e : StepError)
      (b : Bool),
      attemptCandidate env.decode env.decodePng env.necessary (env.body k) =
          Except.error e →
      workerStep env false { phase := WPhase.top k, saved := saved } =
          { phase := WPhase.failed e, saved := saved } ∧
      workerStep env b { phase := WPhase.failed e, saved := saved } =
          { phase := WPhase.failed e, saved := saved } := by
  intro env k saved e b h
  constructor
  · simp [workerStep, h]
  · rfl

/-- Witness for the amended C3: the concrete malformed response body kills
the worker and the dead state is absorbing. -/
theorem render_failure_fatal_witness :
    workerStep demoEnvBadRender false { phase := WPhase.top 0, saved := [] } =
        { phase := WPhase.failed StepError.unpackFailed, saved := [] } ∧
      workerStep demoEnvBadRender true
          { phase := WPhase.failed StepError.unpackFailed, saved := [] } =
        { phase := WPhase.failed StepError.unpackFailed, saved := [] } :=
  render_failure_fatal demoEnvBadRender 0 [] StepError.unpackFailed true rfl

/-- C8: the shared stop event is consulted only at the top of the
sampling loop (every off-top step is independent of it), and a worker
whose candidate has passed validation completes the scoring pass and
persists the result file before exiting or looping, whatever the stop
event's value during those steps. -/
theorem worker_stop_cooperative :
    ∀ (env : WorkerEnv) (b b' : Bool) (s : WState) (c : Img) (p : Params) (k : Nat)
      (saved : List (List Char × Img)) (score : Nat),
      (phaseIsTop s.phase = false → workerStep env b s = workerStep env b' s) ∧
      (eval_qrcode env.decode env.jpeg c = Except.ok score →
        (workerStep env b'
              (workerStep env b
                { phase := WPhase.validated c p k, saved := saved })).saved =
            (filenameFor env.name score p, c) :: saved ∧
        ((workerStep env b'
              (workerStep env b
                { phase := WPhase.validated c p k, saved := saved })).phase =
            WPhase.exited ∨
          (workerStep env b'
              (workerStep env b
                { phase := WPhase.validated c p k, saved := saved })).phase =
            WPhase.top (k + 1))) := by
  intro env b b' s c p k saved score
  constructor
  · intro hTop
    obtain ⟨ph, sv⟩ := s
    cases ph with
    | top k0 => simp [phaseIsTop] at hTop
    | validated c0 p0 k0 => rfl
    | scored c0 p0 s0 k0 => rfl
    | exited => rfl
    | failed e0 => rfl
  · intro hEval
    have h1 : workerStep env b { phase := WPhase.validated c p k, saved := saved } =
        { phase := WPhase.scored c p score k, saved := saved } := by
      simp [workerStep, hEval]
    rw [h1]
    by_cases hsf : env.stopIfFound = true
    · exact ⟨by simp [workerStep, hsf], Or.inl (by simp [workerStep, hsf])⟩
    · rw [Bool.not_eq_true] at hsf
      exact ⟨by simp [workerStep, hsf], Or.inr (by simp [workerStep, hsf])⟩

set_option maxRecDepth 8000 in
/-- Witness for C8: with a concrete always-accepting decoder, the stop
event set mid-scoring does not prevent the scored result from being
persisted before the worker leaves the attempt. -/
theorem worker_stop_cooperative_witness :
    phaseIsTop (WPhase.validated demoCanvas { mask := 1, orient := 2, seed := 3 } 0) =
        false ∧
      workerStep demoEnvAccept true
          { phase := WPhase.validated demoCanvas { mask := 1, orient := 2, seed := 3 } 0,
            saved := [] } =
        workerStep demoEnvAccept false
          { phase := WPhase.validated demoCanvas { mask := 1, orient := 2, seed := 3 } 0,
            saved := [] } ∧
      eval_qrcode demoEnvAccept.decode demoEnvAccept.jpeg demoCanvas = Except.ok 96 ∧
      (workerStep demoEnvAccept false
            (workerStep demoEnvAccept true
              { phase := WPhase.validated demoCanvas { mask := 1, orient := 2, seed := 3 } 0,
                saved := [] })).saved =
        [(filenameFor demoEnvAccept.name 96 { mask := 1, orient := 2, seed := 3 },
          demoCanvas)] ∧
      ((workerStep demoEnvAccept false
            (workerStep demoEnvAccept true
              { phase := WPhase.validated demoCanvas { mask := 1, orient := 2, seed := 3 } 0,
                saved := [] })).phase = WPhase.exited ∨
        (workerStep demoEnvAccept false
            (workerStep demoEnvAccept true
              { phase := WPhase.validated demoCanvas { mask := 1, orient := 2, seed := 3 } 0,
                saved := [] })).phase = WPhase.top 1) := by
  have h := worker_stop_cooperative demoEnvAccept true false
    { phase := WPhase.validated demoCanvas { mask := 1, orient := 2, seed := 3 } 0,
      saved := [] } demoCanvas { mask := 1, orient := 2, seed := 3 } 0 [] 96
  exact ⟨rfl, h.1 rfl, rfl, (h.2 rfl).1, (h.2 rfl).2⟩

/-- Characters produced by `digitChar` on a decimal digit are decimal
digit characters. -/
theorem digitChar_isDigit : ∀ d : Nat, d < 10 → (digitChar d).isDigit = true := by
  intro d hd
  interval_cases d <;> decide

/-- On decimal digits, `digitChar` is injective. -/
theorem digitChar_injOn :
    ∀ d e : Nat, d < 10 → e < 10 → digitChar d = digitChar e → d = e := by
  intro d e hd he
  interval_cases d <;> interval_cases e <;> decide

/-- Every character of a decimal representation is a digit character. -/
theorem decRepr_digitsOnly : ∀ n : Nat, ∀ c ∈ decRepr n, c.isDigit = true := by
  intro n c hc
  simp only [decRepr, List.mem_reverse, List.mem_map] at hc
  obtain ⟨d, hd, rfl⟩ := hc
  exact digitChar_isDigit d (Nat.digits_lt_base (by norm_num) hd)

/-- Mapping `digitChar` over digit lists is injective. -/
theorem map_digitChar_injAux :
    ∀ l1 l2 : List Nat, (∀ d ∈ l1, d < 10) → (∀ d ∈ l2, d < 10) →
      l1.map digitChar = l2.map digitChar → l1 = l2 := by
  intro l1
  induction l1 with
  | nil =>
    intro l2 _ _ h
    cases l2 with
    | nil => rfl
    | cons x t => simp at h
  | cons a t ih =>
    intro l2 h1 h2 h
    cases l2 with
    | nil => simp at h
    | cons x t2 =>
      simp only [List.map_cons, List.cons.injEq] at h
      obtain ⟨hh, ht⟩ := h
      have ha : a = x := digitChar_injOn a x (h1 a (by simp)) (h2 x (by simp)) hh
      have hts : t = t2 :=
        ih t2 (fun d hd => h1 d (by simp [hd])) (fun d hd => h2 d (by simp [hd])) ht
      rw [ha, hts]

/-- Decimal representations of distinct naturals are distinct. -/
theorem decRepr_inj : ∀ m n : Nat, decRepr m = decRepr n → m = n := by
  intro m n h
  have h1 : (Nat.digits 10 m).map digitChar = (Nat.digits 10 n).map digitChar :=
    List.reverse_injective h
  have h2 : Nat.digits 10 m = Nat.digits 10 n :=
    map_digitChar_injAux _ _ (fun d hd => Nat.digits_lt_base (by norm_num) hd)
      (fun d hd => Nat.digits_lt_base (by norm_num) hd) h1
  have h3 := congrArg (Nat.ofDigits 10) h2
  rwa [Nat.ofDigits_digits, Nat.ofDigits_digits] at h3

/-- Cancellation at a non-digit separator: two digit-only runs followed by
the same non-digit character and arbitrary tails are equal iff the runs
and the tails are. -/
theorem digits_cut :
    ∀ a : List Char, (∀ ch ∈ a, ch.isDigit = true) →
      ∀ (a' r r' : List Char) (c : Char), (∀ ch ∈ a', ch.isDigit = true) →
        c.isDigit = false → a ++ c :: r = a' ++ c :: r' → a = a' ∧ r = r' := by
  intro a
  induction a with
  | nil =>
    intro _ a' r r' c h2 hc h
    cases a' with
    | nil =>
      simp only [List.nil_append, List.cons.injEq] at h
      exact ⟨rfl, h.2⟩
    | cons x t =>
      exfalso
      simp only [List.nil_append, List.cons_append, List.cons.injEq] at h
      have hx : x.isDigit = true := h2 x (by simp)
      rw [← h.1, hc] at hx
      exact absurd hx (by decide)
  | cons x t ih =>
    intro h1 a' r r' c h2 hc h
    cases a' with
    | nil =>
      exfalso
      simp only [List.nil_append, List.cons_append, List.cons.injEq] at h
      have hx : x.isDigit = true := h1 x (by simp)
      rw [h.1, hc] at hx
      exact absurd hx (by decide)
    | cons y t2 =>
      simp only [List.cons_append, List.cons.injEq] at h
      obtain ⟨hxy, ht⟩ := h
      obtain ⟨ha, hr⟩ := ih (fun ch hch => h1 ch (by simp [hch])) t2 r r' c
        (fun ch hch => h2 ch (by simp [hch])) hc ht
      exact ⟨by rw [hxy, ha], hr⟩

/-- C9: the persisted filename is the deterministic function
`filenameFor` of session name, score and the drawn parameters, and it is
injective in the parameter tuple (and the score) for a fixed session
name, so a different draw can never silently overwrite a result. -/
theorem filename_injective :
    ∀ (name : List Char) (score score' : Nat) (p p' : Params),
      filenameFor name score p = filenameFor name score' p' →
      p = p' ∧ score = score' := by
  intro name score score' p p' h
  rw [filenameFor, filenameFor] at h
  have h0 := List.append_cancel_left h
  injection h0 with _ h1
  obtain ⟨hs, h2⟩ := digits_cut (decRepr score) (decRepr_digitsOnly score)
    (decRepr score') _ _ '-' (decRepr_digitsOnly score') (by decide) h1
  injection h2 with _ h3
  obtain ⟨hm, h4⟩ := digits_cut (decRepr p.mask) (decRepr_digitsOnly _)
    (decRepr p'.mask) _ _ 'o' (decRepr_digitsOnly _) (by decide) h3
  obtain ⟨ho, h5⟩ := digits_cut (decRepr p.orient) (decRepr_digitsOnly _)
    (decRepr p'.orient) _ _ 's' (decRepr_digitsOnly _) (by decide) h4
  obtain ⟨hd, -⟩ := digits_cut (decRepr p.seed) (decRepr_digitsOnly _)
    (decRepr p'.seed) _ _ '.' (decRepr_digitsOnly _) (by decide) h5
  refine ⟨?_, decRepr_inj _ _ hs⟩
  obtain ⟨pm, po, pd⟩ := p
  obtain ⟨pm', po', pd'⟩ := p'
  simp only [Params.mk.injEq]
  exact ⟨decRepr_inj _ _ hm, decRepr_inj _ _ ho, decRepr_inj _ _ hd⟩

/-- Witness for C9: applying the injectivity at a concrete name, score and
parameter draw. -/
theorem filename_injective_witness :
    ({ mask := 1, orient := 2, seed := 3 } : Params) =
        { mask := 1, orient := 2, seed := 3 } ∧ (7 : Nat) = 7 :=
  filename_injective (String.toList "pixel") 7 7 { mask := 1, orient := 2, seed := 3 }
    { mask := 1, orient := 2, seed := 3 } rfl

/-- C10: the entry point accepts a design path exactly when the extension
of its basename, lowercased character-wise, is `.png` — the comparison is
case-insensitive and independent of the file's content — aborting with an
assertion failure otherwise, and on acceptance the session name is the
basename with that extension stripped. -/
theorem cli_png_gate :
    ∀ (path : List Char) (content content' : Bool),
      cliGate path content = cliGate path content' ∧
      ((splitext (basename path)).2.map lowerChar = pngExt →
        cliGate path content = Except.ok (splitext (basename path)).1) ∧
      ((splitext (basename path)).2.map lowerChar ≠ pngExt →
        cliGate path content = Except.error CliError.assertionFailed) ∧
      cliGate (String.toList "art/design.PNG") content =
        Except.ok (String.toList "design") ∧
      cliGate (String.toList "design.jpg") content =
        Except.error CliError.assertionFailed := by
  intro path content content'
  refine ⟨rfl, ?_, ?_, rfl, rfl⟩
  · intro h
    simp [cliGate, h]
  · intro h
    simp [cliGate, h]

/-- Witness for C10: a mixed-case `.PnG` path passes the gate with the
stripped name, and a non-png path fails it even with valid PNG content. -/
theorem cli_png_gate_witness :
    cliGate (String.toList "photo.PnG") true = Except.ok (String.toList "photo") ∧
    cliGate (String.toList "photo.png.jpeg") true = Except.error CliError.assertionFailed :=
  ⟨(cli_png_gate (String.toList "photo.PnG") true true).2.1 (by decide),
    (cli_png_gate (String.toList "photo.png.jpeg") true true).2.2.1 (by decide)⟩
